import Mathlib

/-!
Verification of the request-execution core of the hyperfluid-sdk-go
repository: the retry loop `do` in `sdk/request.go`, the token refresh
logic `refreshToken` / `exchangeKeycloakToken` in `sdk/auth.go`, and the
supporting data model `utils.Configuration` / `utils.Response` and the
classified error values of the `utils` package.

The embedding is a shallow one.  The external world (network transport,
the Keycloak token endpoint, `encoding/json` parsing, context
cancellation during the backoff sleep) is supplied as an oracle
environment `Env`; the control flow of the Go functions is translated
statement by statement.  The retry loop `for i := 0; i <= MaxRetries; i++`
is modelled by structural recursion on the remaining iteration budget
(`MaxRetries + 1` at entry); `MaxRetries` is the spec's "max retry
count", a non-negative count, modelled as `Nat`.  The model additionally
threads instrumentation counters (send attempts, backoff sleeps entered,
refresh calls, token-endpoint round trips) so that attempt-counting
properties can be stated; the counters are pure observation and do not
influence control flow except as indices into the oracle.
-/

namespace HyperfluidSdk

/-- `utils.Configuration` (sdk/utils).  `MaxRetries` is the retry count;
`RequestTimeout`/MinIO fields are irrelevant to the request core and the
timeout is kept only as an opaque number. -/
structure Configuration where
  baseURL : String := ""
  orgID : String := ""
  dataDockID : String := ""
  token : String := ""
  skipTLSVerify : Bool := false
  requestTimeoutMs : Nat := 0
  maxRetries : Nat := 0
  keycloakBaseURL : String := ""
  keycloakRealm : String := ""
  keycloakClientID : String := ""
  keycloakClientSecret : String := ""
  keycloakUsername : String := ""
  keycloakPassword : String := ""
  deriving Repr, DecidableEq

/-- `utils.StatusOK`. -/
def statusOK : String := "ok"

/-- `utils.StatusError`. -/
def statusError : String := "error"

/-- `utils.Response`.  `Data` holds the decoded JSON body (opaque here),
`none` standing for Go's `nil`. -/
structure Response where
  status : String
  data : Option String := none
  error : String := ""
  httpCode : Nat := 0
  deriving Repr, DecidableEq

/-- The classified error values of `sdk/utils` (`errors.go`) together
with the wrapping errors built by `fmt.Errorf` in `request.go` and
`auth.go`.  Each constructor records the wrapped sentinel (via the
classification predicates below) and the dynamic detail that entered the
format string. -/
inductive GoError where
  /-- transport failure from `c.httpClient.Do`. -/
  | transport (msg : String)
  /-- failure of `io.ReadAll` on the response body. -/
  | readBody (msg : String)
  /-- `fmt.Errorf("server returned status %d", code)`. -/
  | serverStatus (code : Nat)
  /-- `fmt.Errorf("failed to parse response body: %w", err)`. -/
  | parseFailure (body : String)
  /-- `ctx.Err()` observed during the backoff sleep. -/
  | ctxCancelled
  /-- bare `utils.ErrInvalidConfiguration`. -/
  | invalidConfiguration
  /-- bare `utils.ErrAuthenticationFailed` (the 401 path of `do`). -/
  | authenticationFailed
  /-- bare `utils.ErrPermissionDenied`. -/
  | permissionDenied
  /-- bare `utils.ErrNotFound`. -/
  | notFound
  /-- `fmt.Errorf("%w: %s", utils.ErrInvalidRequest, body)` for other 4xx. -/
  | invalidRequestBody (body : String)
  /-- `fmt.Errorf("%w: %w", utils.ErrInvalidRequest, err)` when
  `http.NewRequestWithContext` fails. -/
  | buildRequestFailed
  /-- `fmt.Errorf("%w: cannot reach Keycloak: %w", utils.ErrAuthenticationFailed, err)`. -/
  | authKeycloakUnreachable (msg : String)
  /-- `fmt.Errorf("%w: Keycloak token exchange failed (%d): %s", ...)`. -/
  | authExchangeFailed (code : Nat) (body : String)
  /-- `fmt.Errorf("%w: invalid Keycloak response: %w", utils.ErrAuthenticationFailed, err)`. -/
  | authInvalidKeycloakResponse
  /-- `fmt.Errorf("%w: missing access_token in Keycloak response", ...)`. -/
  | authMissingAccessToken
  /-- `fmt.Errorf("%w: password grant failed: %w", utils.ErrAuthenticationFailed, err)`. -/
  | authPasswordGrantFailed (inner : GoError)
  /-- `fmt.Errorf("%w: Keycloak base URL or realm not configured", utils.ErrInvalidConfiguration)`. -/
  | configKeycloakEndpointMissing
  /-- `fmt.Errorf("max retries exceeded, last response was: %s", lastResp.Error)`. -/
  | maxRetriesLastResp (respError : String)
  /-- `fmt.Errorf("max retries exceeded, last error: %w", lastErr)` with a
  non-nil `lastErr`. -/
  | maxRetriesLastErr (lastErr : GoError)
  /-- `fmt.Errorf("max retries exceeded, last error: %w", lastErr)` with
  `lastErr` still nil (no iteration recorded an error). -/
  | maxRetriesNilErr
  deriving Repr, DecidableEq

namespace GoError

/-- `errors.Is(e, utils.ErrAuthenticationFailed)`: the error is or wraps
the authentication-failed sentinel. -/
def isAuthClassified : GoError → Bool
  | .authenticationFailed => true
  | .authKeycloakUnreachable _ => true
  | .authExchangeFailed _ _ => true
  | .authInvalidKeycloakResponse => true
  | .authMissingAccessToken => true
  | .authPasswordGrantFailed _ => true
  | _ => false

/-- `errors.Is(e, utils.ErrInvalidConfiguration)`. -/
def isConfigClassified : GoError → Bool
  | .invalidConfiguration => true
  | .configKeycloakEndpointMissing => true
  | _ => false

/-- The error is one of the classifications `do` attaches to a terminal
4xx HTTP outcome: 401 (authentication failed), 403 (permission denied),
404 (not found), other 4xx (invalid request with the body in the
message). -/
def isTerminal4xxClassification : GoError → Bool
  | .authenticationFailed => true
  | .permissionDenied => true
  | .notFound => true
  | .invalidRequestBody _ => true
  | _ => false

/-- The error is one of the two "max retries exceeded" wrappings
produced when the retry loop exhausts its budget. -/
def isExhausted : GoError → Bool
  | .maxRetriesLastResp _ => true
  | .maxRetriesLastErr _ => true
  | .maxRetriesNilErr => true
  | _ => false

end GoError

/-- `Client.hasKeycloakPasswordGrantCredentials` (sdk/auth.go). -/
def Configuration.hasKeycloakPasswordGrantCredentials (c : Configuration) : Bool :=
  c.keycloakUsername ≠ "" ∧ c.keycloakPassword ≠ ""

/-- `Client.hasKeycloakClientCredentials` (sdk/auth.go). -/
def Configuration.hasKeycloakClientCredentials (c : Configuration) : Bool :=
  c.keycloakClientID ≠ "" ∧ c.keycloakClientSecret ≠ ""

/-- `Client.isKeycloakAuthMethodConfigured` (sdk/auth.go). -/
def Configuration.isKeycloakAuthMethodConfigured (c : Configuration) : Bool :=
  c.hasKeycloakPasswordGrantCredentials || c.hasKeycloakClientCredentials

/-- The form posted to the Keycloak token endpoint: the
`url.Values` built by `refreshAccessTokenClientCredentials` resp.
`refreshAccessTokenPasswordGrant` (sdk/auth.go). -/
inductive GrantForm where
  | clientCredentials (clientId clientSecret : String)
  | password (clientId username password : String)
  deriving Repr, DecidableEq

/-- The form of `refreshAccessTokenClientCredentials`. -/
def clientCredentialsForm (c : Configuration) : GrantForm :=
  .clientCredentials c.keycloakClientID c.keycloakClientSecret

/-- The form of `refreshAccessTokenPasswordGrant`. -/
def passwordGrantForm (c : Configuration) : GrantForm :=
  .password c.keycloakClientID c.keycloakUsername c.keycloakPassword

/-- Outcome of one round trip with the Keycloak token endpoint
(`keycloakClient.Do` in `exchangeKeycloakToken`). -/
inductive TokenEndpointOutcome where
  /-- the HTTP call itself failed. -/
  | netErr (msg : String)
  /-- the endpoint answered with this status code and body. -/
  | resp (status : Nat) (body : String)
  deriving Repr, DecidableEq

/-- Outcome of one send attempt on the main transport
(`c.httpClient.Do` followed by `io.ReadAll` in `do`). -/
inductive SendOutcome where
  /-- `c.httpClient.Do` returned an error. -/
  | transportErr (msg : String)
  /-- `io.ReadAll(resp.Body)` returned an error. -/
  | readErr (msg : String)
  /-- the upstream answered with this status code and body. -/
  | httpResp (status : Nat) (body : String)
  deriving Repr, DecidableEq

/-- Oracle environment: everything outside the program text.  Oracles
are indexed by occurrence count (the k-th send, the k-th sleep, the k-th
token-endpoint round trip) so that an arbitrary sequence of external
behaviours can be described.  `parse` and `tokenJson` model
`encoding/json.Unmarshal`, which is a pure function of the body bytes:
`parse body = none` means unmarshalling fails, `tokenJson body = some f`
means unmarshalling succeeds with `f` the value of the `access_token`
string field (`none` if absent or not a string). -/
structure Env where
  /-- whether `http.NewRequestWithContext(method, url, ...)` succeeds;
  constant over the loop since its arguments do not change. -/
  buildOk : Bool := true
  /-- outcome of the k-th send attempt on the main transport. -/
  send : Nat → SendOutcome
  /-- whether the caller's context is cancelled during the k-th backoff
  sleep (the `select` on `time.After` / `ctx.Done()`). -/
  cancelDuringSleep : Nat → Bool := fun _ => false
  /-- `json.Unmarshal` on a success-response body. -/
  parse : String → Option String := fun b => some b
  /-- outcome of the k-th round trip with the Keycloak token endpoint. -/
  tokenEndpoint : Nat → TokenEndpointOutcome := fun _ => .netErr "unreachable"
  /-- `json.Unmarshal` on a token-endpoint body plus the
  `parsed["access_token"].(string)` projection. -/
  tokenJson : String → Option (Option String) := fun _ => none

/-- Boolean equality on `Except GoError String`, used only to supply a
`DecidableEq` instance for result records. -/
def exceptEq : Except GoError String → Except GoError String → Bool
  | .ok a, .ok b => a = b
  | .error a, .error b => a = b
  | _, _ => false

instance : DecidableEq (Except GoError String) := fun x y =>
  decidable_of_iff (exceptEq x y = true)
    (by cases x <;> cases y <;> simp [exceptEq])

/-- Result of `exchangeKeycloakToken`: the returned
`(string, error)` pair and how many token-endpoint round trips the call
performed (0 when the endpoint configuration check fails, 1 otherwise). -/
structure ExchangeResult where
  result : Except GoError String
  endpointCalls : Nat
  deriving Repr, DecidableEq

/-- `Client.exchangeKeycloakToken` (sdk/auth.go): check that the
Keycloak base URL and realm are configured, post the form to the token
endpoint, require status 200, parse the JSON body and extract a
non-empty `access_token` field. -/
def exchangeKeycloakToken (env : Env) (cfg : Configuration) (callIdx : Nat)
    (_form : GrantForm) : ExchangeResult :=
  if cfg.keycloakBaseURL = "" ∨ cfg.keycloakRealm = "" then
    ⟨.error .configKeycloakEndpointMissing, 0⟩
  else
    match env.tokenEndpoint callIdx with
    | .netErr m => ⟨.error (.authKeycloakUnreachable m), 1⟩
    | .resp status body =>
      if status ≠ 200 then
        ⟨.error (.authExchangeFailed status body), 1⟩
      else
        match env.tokenJson body with
        | none => ⟨.error .authInvalidKeycloakResponse, 1⟩
        | some none => ⟨.error .authMissingAccessToken, 1⟩
        | some (some t) =>
          if t = "" then ⟨.error .authMissingAccessToken, 1⟩
          else ⟨.ok t, 1⟩

/-- Result of `refreshToken`: the returned `(string, error)` pair, the
configuration after the call (the token field is overwritten on
success), the grant forms attempted in order, and the number of
token-endpoint round trips performed. -/
structure RefreshResult where
  result : Except GoError String
  config : Configuration
  attempts : List GrantForm
  endpointCalls : Nat
  deriving Repr, DecidableEq

/-- `Client.refreshToken` (sdk/auth.go).  The whole body runs under
`authMutex`; `callIdx` is the number of token-endpoint round trips that
happened before this call (the oracle index).  Control flow follows the
source: if client credentials are configured try the client-credentials
grant and on success store and return the token; otherwise (or on its
failure) if password-grant credentials are configured try the password
grant, returning its token on success and an
`ErrAuthenticationFailed`-wrapped error on failure; if the password
grant is not configured return `ErrInvalidConfiguration`. -/
def refreshToken (env : Env) (cfg : Configuration) (callIdx : Nat) : RefreshResult :=
  if cfg.hasKeycloakClientCredentials then
    let e := exchangeKeycloakToken env cfg callIdx (clientCredentialsForm cfg)
    match e.result with
    | .ok newToken =>
      ⟨.ok newToken, { cfg with token := newToken },
        [clientCredentialsForm cfg], e.endpointCalls⟩
    | .error _ =>
      if cfg.hasKeycloakPasswordGrantCredentials then
        let e2 := exchangeKeycloakToken env cfg (callIdx + e.endpointCalls)
          (passwordGrantForm cfg)
        match e2.result with
        | .ok newToken =>
          ⟨.ok newToken, { cfg with token := newToken },
            [clientCredentialsForm cfg, passwordGrantForm cfg],
            e.endpointCalls + e2.endpointCalls⟩
        | .error err =>
          ⟨.error (.authPasswordGrantFailed err), cfg,
            [clientCredentialsForm cfg, passwordGrantForm cfg],
            e.endpointCalls + e2.endpointCalls⟩
      else
        ⟨.error .invalidConfiguration, cfg,
          [clientCredentialsForm cfg], e.endpointCalls⟩
  else
    if cfg.hasKeycloakPasswordGrantCredentials then
      let e2 := exchangeKeycloakToken env cfg callIdx (passwordGrantForm cfg)
      match e2.result with
      | .ok newToken =>
        ⟨.ok newToken, { cfg with token := newToken },
          [passwordGrantForm cfg], e2.endpointCalls⟩
      | .error err =>
        ⟨.error (.authPasswordGrantFailed err), cfg,
          [passwordGrantForm cfg], e2.endpointCalls⟩
    else
      ⟨.error .invalidConfiguration, cfg, [], 0⟩

/-- Result of `do`: the returned `(*utils.Response, error)` pair
(`none` standing for Go's `nil`), the configuration after the call
(token refresh mutates it), and the instrumentation counters. -/
structure DoResult where
  envelope : Option Response
  error : Option GoError
  config : Configuration
  sends : Nat
  sleeps : Nat
  refreshes : Nat
  endpointCalls : Nat
  deriving Repr, DecidableEq

/-- The body of the retry loop of `Client.do` (sdk/request.go),
recursing on the remaining iteration budget `fuel` (at entry
`MaxRetries + 1`); `i` is the loop index, `lastErr` / `lastResp` the two
accumulator variables, and the remaining arguments the instrumentation
counters (also oracle indices).  When `fuel` is 0 the loop condition
`i <= MaxRetries` has failed and the code after the loop runs. -/
def doLoop (env : Env) (cfg : Configuration) (fuel : Nat) (i : Nat)
    (lastErr : Option GoError) (lastResp : Option Response)
    (sends sleeps refreshes endpointCalls : Nat) : DoResult :=
  match fuel with
  | 0 =>
    match lastResp with
    | some r =>
      ⟨some r, some (.maxRetriesLastResp r.error), cfg,
        sends, sleeps, refreshes, endpointCalls⟩
    | none =>
      match lastErr with
      | some e =>
        ⟨none, some (.maxRetriesLastErr e), cfg,
          sends, sleeps, refreshes, endpointCalls⟩
      | none =>
        ⟨none, some .maxRetriesNilErr, cfg,
          sends, sleeps, refreshes, endpointCalls⟩
  | fuel + 1 =>
    if 0 < i ∧ env.cancelDuringSleep sleeps then
      -- context cancelled during the backoff select: return ctx.Err()
      ⟨none, some .ctxCancelled, cfg, sends, sleeps + 1, refreshes, endpointCalls⟩
    else
      let sleeps := if 0 < i then sleeps + 1 else sleeps
      if env.buildOk = false then
        ⟨none, some .buildRequestFailed, cfg, sends, sleeps, refreshes, endpointCalls⟩
      else if cfg.token = "" then
        ⟨none, some .invalidConfiguration, cfg, sends, sleeps, refreshes, endpointCalls⟩
      else
        match env.send sends with
        | .transportErr m =>
          doLoop env cfg fuel (i + 1) (some (.transport m)) lastResp
            (sends + 1) sleeps refreshes endpointCalls
        | .readErr m =>
          doLoop env cfg fuel (i + 1) (some (.readBody m)) lastResp
            (sends + 1) sleeps refreshes endpointCalls
        | .httpResp status body =>
          if 300 ≤ status then
            let resp : Response := ⟨statusError, none, body, status⟩
            if status = 401 then
              if cfg.isKeycloakAuthMethodConfigured then
                let r := refreshToken env cfg endpointCalls
                match r.result with
                | .ok _ =>
                  doLoop env r.config fuel (i + 1) lastErr (some resp)
                    (sends + 1) sleeps (refreshes + 1)
                    (endpointCalls + r.endpointCalls)
                | .error _ =>
                  ⟨some resp, some .authenticationFailed, r.config,
                    sends + 1, sleeps, refreshes + 1,
                    endpointCalls + r.endpointCalls⟩
              else
                ⟨some resp, some .authenticationFailed, cfg,
                  sends + 1, sleeps, refreshes, endpointCalls⟩
            else if status = 403 then
              ⟨some resp, some .permissionDenied, cfg,
                sends + 1, sleeps, refreshes, endpointCalls⟩
            else if status = 404 then
              ⟨some resp, some .notFound, cfg,
                sends + 1, sleeps, refreshes, endpointCalls⟩
            else if 400 ≤ status ∧ status < 500 then
              ⟨some resp, some (.invalidRequestBody body), cfg,
                sends + 1, sleeps, refreshes, endpointCalls⟩
            else
              doLoop env cfg fuel (i + 1) (some (.serverStatus status)) (some resp)
                (sends + 1) sleeps refreshes endpointCalls
          else
            match env.parse body with
            | none =>
              doLoop env cfg fuel (i + 1) (some (.parseFailure body)) lastResp
                (sends + 1) sleeps refreshes endpointCalls
            | some v =>
              ⟨some ⟨statusOK, some v, "", status⟩, none, cfg,
                sends + 1, sleeps, refreshes, endpointCalls⟩

/-- `Client.do` (sdk/request.go): run the retry loop with the full
budget of `MaxRetries + 1` iterations and empty accumulators.
`Client.Do` (sdk/client.go) delegates to it unchanged. -/
def doRequest (env : Env) (cfg : Configuration) : DoResult :=
  doLoop env cfg (cfg.maxRetries + 1) 0 none none 0 0 0 0

/-- `Client.Do` (sdk/client.go) is a direct delegation to `do`. -/
def DoEntry (env : Env) (cfg : Configuration) : DoResult :=
  doRequest env cfg

/-- A send-attempt outcome on which the loop body of `do` records a last
error and continues to the next iteration: a transport error, a body-read
error, a status of 300 or above that is not in the terminal 4xx range, or
a sub-300 status whose body fails to parse. -/
def retryableOutcome (env : Env) : SendOutcome → Prop
  | .transportErr _ => True
  | .readErr _ => True
  | .httpResp status body =>
    if 300 ≤ status then ¬(400 ≤ status ∧ status < 500)
    else env.parse body = none

/-- The safety contract of `Do`: a non-nil envelope or a non-nil error is
always returned, and whenever the error is one of the terminal-4xx
classifications the error envelope is returned alongside it. -/
def SafeResult (r : DoResult) : Prop :=
  (r.envelope.isSome = true ∨ r.error.isSome = true) ∧
  ∀ e, r.error = some e → e.isTerminal4xxClassification = true →
    r.envelope.isSome = true

/-- The behaviour `authMutex` enforces when two concurrent calls both
observe a 401 and both invoke `refreshToken` on the shared client: the
lock covers the whole body of `refreshToken`, so the two critical
sections execute one after the other against the shared configuration.
The second call's oracle index starts where the first call's
token-endpoint round trips ended. -/
def serializedDoubleRefresh (env : Env) (cfg : Configuration) :
    RefreshResult × RefreshResult :=
  let r1 := refreshToken env cfg 0
  let r2 := refreshToken env r1.config r1.endpointCalls
  (r1, r2)

/-! Concrete environments and configurations used by witnesses and
counterexamples. -/

/-- An upstream that always answers 500. -/
def envAlways500 : Env := { send := fun _ => .httpResp 500 "boom" }

/-- An upstream whose transport always fails. -/
def envAlwaysTransportErr : Env := { send := fun _ => .transportErr "conn reset" }

/-- A client configuration with a static token and `MaxRetries = 2`,
no OIDC credentials. -/
def cfgStatic : Configuration := { token := "t", maxRetries := 2 }

/-- Client-credentials OIDC configuration with `MaxRetries = 1`. -/
def cfgOidc : Configuration :=
  { token := "old", maxRetries := 1, keycloakBaseURL := "http://kc",
    keycloakRealm := "r", keycloakClientID := "cid", keycloakClientSecret := "sec" }

/-- A single 401 followed by 200, with a healthy token endpoint. -/
def envRefreshOk : Env :=
  { send := fun k => if k = 0 then .httpResp 401 "unauthorized" else .httpResp 200 "{}"
    parse := fun b => some b
    tokenEndpoint := fun _ => .resp 200 "tokenbody"
    tokenJson := fun _ => some (some "fresh") }

/-- Always 401, with the token endpoint unreachable. -/
def envRefreshDown : Env :=
  { send := fun _ => .httpResp 401 "unauthorized"
    tokenEndpoint := fun _ => .netErr "down"
    tokenJson := fun _ => none }

/-- A healthy token endpoint (for refresh-only scenarios). -/
def envEndpointOk : Env :=
  { send := fun _ => .httpResp 401 "x"
    tokenEndpoint := fun _ => .resp 200 "tokenbody"
    tokenJson := fun _ => some (some "fresh") }

/-- An upstream that would answer 200, used where no send may happen. -/
def envNoCall : Env := { send := fun _ => .httpResp 200 "{}" }

/-- Empty token but fully configured client-credentials OIDC. -/
def cfgEmptyTokenOidc : Configuration :=
  { token := "", maxRetries := 3, keycloakBaseURL := "http://kc",
    keycloakRealm := "r", keycloakClientID := "cid", keycloakClientSecret := "sec" }

/-- Empty token and no OIDC credentials at all. -/
def cfgEmptyTokenNoOidc : Configuration := { token := "", maxRetries := 3 }

/-- A static-token configuration with no OIDC scheme configured. -/
def cfgNoScheme : Configuration := { token := "t" }

/-- Both client-credentials and password-grant credentials configured. -/
def cfgBothGrants : Configuration :=
  { token := "old", keycloakBaseURL := "http://kc", keycloakRealm := "r",
    keycloakClientID := "cid", keycloakClientSecret := "sec",
    keycloakUsername := "u", keycloakPassword := "p" }

/-- A token endpoint that rejects the first exchange and accepts the
second. -/
def envCCFailsPWOk : Env :=
  { send := fun _ => .httpResp 401 "x"
    tokenEndpoint := fun k => if k = 0 then .resp 403 "denied" else .resp 200 "body"
    tokenJson := fun _ => some (some "fresh") }

/-- A 403-answering upstream. -/
def env403 : Env := { send := fun _ => .httpResp 403 "forbidden" }

/-- A 404-answering upstream. -/
def env404 : Env := { send := fun _ => .httpResp 404 "missing" }

/-- A 500-answering upstream whose caller cancels the context during the
first backoff sleep. -/
def envCancelFirstSleep : Env :=
  { send := fun _ => .httpResp 500 "boom", cancelDuringSleep := fun _ => true }

/-- C9: with an empty token and no OIDC credential scheme configured,
`do` (and hence `Do`) returns a nil envelope and the bare
`ErrInvalidConfiguration` on the very first iteration: zero send
attempts, zero token-endpoint calls, zero refreshes, no backoff sleep.
(The request-construction success hypothesis reflects that
`http.NewRequestWithContext` is checked before the token; it succeeds
for any well-formed method and URL.) -/
theorem do_no_token_no_oidc_configuration_invalid (env : Env) (cfg : Configuration)
    (hbuild : env.buildOk = true) (htok : cfg.token = "")
    (hcc : cfg.hasKeycloakClientCredentials = false)
    (hpw : cfg.hasKeycloakPasswordGrantCredentials = false) :
    doRequest env cfg = ⟨none, some .invalidConfiguration, cfg, 0, 0, 0, 0⟩ := by
  simp [doRequest, doLoop, hbuild, htok]

/-- Witness for C9 at a concrete configuration with empty token, no
OIDC credentials, `MaxRetries = 3`. -/
theorem do_no_token_no_oidc_configuration_invalid_witness :
    doRequest envNoCall cfgEmptyTokenNoOidc
      = ⟨none, some .invalidConfiguration, cfgEmptyTokenNoOidc, 0, 0, 0, 0⟩ :=
  do_no_token_no_oidc_configuration_invalid envNoCall cfgEmptyTokenNoOidc
    (by decide) (by decide) (by decide) (by decide)

/-- C10: whenever the configured token is the empty string, `do` returns
a nil envelope and `ErrInvalidConfiguration` without sending, sleeping,
refreshing or touching the token endpoint, and leaves the configuration
(including the token) unchanged — even when OIDC credentials are fully
configured, since the empty-token check precedes any send and a refresh
can only be triggered by a 401 response to a send. -/
theorem do_empty_token_short_circuits (env : Env) (cfg : Configuration)
    (hbuild : env.buildOk = true) (htok : cfg.token = "") :
    doRequest env cfg = ⟨none, some .invalidConfiguration, cfg, 0, 0, 0, 0⟩ := by
  simp [doRequest, doLoop, hbuild, htok]

/-- Witness for C10 at a configuration with empty token and fully
configured client-credentials OIDC. -/
theorem do_empty_token_short_circuits_witness :
    doRequest envNoCall cfgEmptyTokenOidc
      = ⟨none, some .invalidConfiguration, cfgEmptyTokenOidc, 0, 0, 0, 0⟩ :=
  do_empty_token_short_circuits envNoCall cfgEmptyTokenOidc (by decide) (by decide)

/-- C7: a 403 (resp. 404) answer to the first send attempt terminates
the call immediately — exactly one send attempt, no backoff sleep, no
refresh — returning the error envelope together with
`ErrPermissionDenied` (resp. `ErrNotFound`), for every configuration
with a non-empty token, regardless of `MaxRetries`. -/
theorem do_403_404_terminal_one_attempt (env : Env) (cfg : Configuration)
    (body : String) (hbuild : env.buildOk = true) (htok : ¬cfg.token = "") :
    (env.send 0 = .httpResp 403 body →
      doRequest env cfg
        = ⟨some ⟨statusError, none, body, 403⟩, some .permissionDenied, cfg, 1, 0, 0, 0⟩) ∧
    (env.send 0 = .httpResp 404 body →
      doRequest env cfg
        = ⟨some ⟨statusError, none, body, 404⟩, some .notFound, cfg, 1, 0, 0, 0⟩) := by
  constructor <;> intro h <;> simp [doRequest, doLoop, hbuild, htok, h]

/-- Witness for C7: a 403 with `MaxRetries = 2` and a 404 with
`MaxRetries = 1` both answer after exactly one send attempt. -/
theorem do_403_404_terminal_one_attempt_witness :
    doRequest env403 cfgStatic
      = ⟨some ⟨statusError, none, "forbidden", 403⟩, some .permissionDenied,
         cfgStatic, 1, 0, 0, 0⟩ ∧
    doRequest env404 cfgOidc
      = ⟨some ⟨statusError, none, "missing", 404⟩, some .notFound,
         cfgOidc, 1, 0, 0, 0⟩ :=
  ⟨(do_403_404_terminal_one_attempt env403 cfgStatic "forbidden"
      (by decide) (by decide)).1 (by decide),
   (do_403_404_terminal_one_attempt env404 cfgOidc "missing"
      (by decide) (by decide)).2 (by decide)⟩

/-- C8: when the caller's context is cancelled during the backoff sleep
before the second attempt, `do` aborts at once from inside the sleep and
returns `ctx.Err()` — a nil envelope with the cancellation error, not a
"max retries exceeded" error — even though retry budget remains; the
cancelled iteration performs no further send. -/
theorem do_cancel_during_backoff_returns_cancelled (env : Env) (cfg : Configuration)
    (b : String) (hbuild : env.buildOk = true) (htok : ¬cfg.token = "")
    (hmr : 1 ≤ cfg.maxRetries) (h0 : env.send 0 = .httpResp 500 b)
    (hcancel : env.cancelDuringSleep 0 = true) :
    doRequest env cfg = ⟨none, some .ctxCancelled, cfg, 1, 1, 0, 0⟩ ∧
    ∀ e, (doRequest env cfg).error = some e → e.isExhausted = false := by
  obtain ⟨m, hm⟩ : ∃ m, cfg.maxRetries = m + 1 := ⟨cfg.maxRetries - 1, by omega⟩
  have h1 : doRequest env cfg = ⟨none, some .ctxCancelled, cfg, 1, 1, 0, 0⟩ := by
    simp [doRequest, doLoop, hm, hbuild, htok, h0, hcancel]
  refine ⟨h1, ?_⟩
  intro e he
  rw [h1] at he
  simp only [Option.some.injEq] at he
  rw [← he]
  rfl

/-- Witness for C8: always-500 upstream, cancellation during the first
sleep, `MaxRetries = 2`. -/
theorem do_cancel_during_backoff_returns_cancelled_witness :
    doRequest envCancelFirstSleep cfgStatic
      = ⟨none, some .ctxCancelled, cfgStatic, 1, 1, 0, 0⟩ ∧
    ∀ e, (doRequest envCancelFirstSleep cfgStatic).error = some e →
      e.isExhausted = false :=
  do_cancel_during_backoff_returns_cancelled envCancelFirstSleep cfgStatic "boom"
    (by decide) (by decide) (by decide) (by decide) (by decide)

/-- Loop invariant for C2: when the token is set, the context is never
cancelled, request construction succeeds and every send attempt yields a
retryable outcome, each remaining iteration performs exactly one send
and the loop finally falls through to the "max retries exceeded"
epilogue. -/
lemma doLoop_all_retryable (env : Env) (cfg : Configuration)
    (htok : ¬cfg.token = "") (hbuild : env.buildOk = true)
    (hnc : ∀ k, env.cancelDuringSleep k = false)
    (hr : ∀ k, retryableOutcome env (env.send k)) :
    ∀ fuel i lastErr lastResp sends sleeps refreshes endpointCalls,
      (doLoop env cfg fuel i lastErr lastResp sends sleeps refreshes endpointCalls).sends
          = sends + fuel ∧
      ∃ e, (doLoop env cfg fuel i lastErr lastResp sends sleeps
              refreshes endpointCalls).error = some e ∧ e.isExhausted = true := by
  intro fuel
  induction fuel with
  | zero =>
    intro i le lr s sl r ec
    rcases lr with _ | resp
    · rcases le with _ | e <;> exact ⟨rfl, _, rfl, rfl⟩
    · exact ⟨rfl, _, rfl, rfl⟩
  | succ fuel ih =>
    intro i le lr s sl r ec
    have hstep := hr s
    rcases hsend : env.send s with m | m | ⟨st, b⟩
    · obtain ⟨h1, e, he, hex⟩ := ih (i + 1) (some (.transport m)) lr (s + 1)
        (if 0 < i then sl + 1 else sl) r ec
      constructor
      · simp [doLoop, hnc, hbuild, htok, hsend, h1] <;> omega
      · exact ⟨e, by simp [doLoop, hnc, hbuild, htok, hsend, he], hex⟩
    · obtain ⟨h1, e, he, hex⟩ := ih (i + 1) (some (.readBody m)) lr (s + 1)
        (if 0 < i then sl + 1 else sl) r ec
      constructor
      · simp [doLoop, hnc, hbuild, htok, hsend, h1] <;> omega
      · exact ⟨e, by simp [doLoop, hnc, hbuild, htok, hsend, he], hex⟩
    · rw [hsend] at hstep
      simp only [retryableOutcome] at hstep
      by_cases h300 : 300 ≤ st
      · rw [if_pos h300] at hstep
        have h401 : ¬st = 401 := by omega
        have h403 : ¬st = 403 := by omega
        have h404 : ¬st = 404 := by omega
        obtain ⟨h1, e, he, hex⟩ := ih (i + 1) (some (.serverStatus st))
          (some ⟨statusError, none, b, st⟩) (s + 1)
          (if 0 < i then sl + 1 else sl) r ec
        constructor
        · simp [doLoop, hnc, hbuild, htok, hsend, h300, h401, h403, h404,
            hstep, h1] <;> omega
        · exact ⟨e, by simp [doLoop, hnc, hbuild, htok, hsend, h300, h401,
            h403, h404, hstep, he], hex⟩
      · rw [if_neg h300] at hstep
        obtain ⟨h1, e, he, hex⟩ := ih (i + 1) (some (.parseFailure b)) lr (s + 1)
          (if 0 < i then sl + 1 else sl) r ec
        constructor
        · simp [doLoop, hnc, hbuild, htok, hsend, h300, hstep, h1] <;> omega
        · exact ⟨e, by simp [doLoop, hnc, hbuild, htok, hsend, h300, hstep, he],
            hex⟩

/-- C2: with a non-empty token, a never-cancelled context, and every
send attempt failing with a retryable condition (transport error,
body-read error, 5xx or other retryable status, or an unparseable 2xx
body — always-500 being an instance), `do` performs exactly
`MaxRetries + 1` send attempts and then stops, returning one of the two
"max retries exceeded" error wrappings. -/
theorem do_exhausts_after_max_retries_plus_one (env : Env) (cfg : Configuration)
    (htok : ¬cfg.token = "") (hbuild : env.buildOk = true)
    (hnc : ∀ k, env.cancelDuringSleep k = false)
    (hr : ∀ k, retryableOutcome env (env.send k)) :
    (doRequest env cfg).sends = cfg.maxRetries + 1 ∧
    ∃ e, (doRequest env cfg).error = some e ∧ e.isExhausted = true := by
  have h := doLoop_all_retryable env cfg htok hbuild hnc hr
    (cfg.maxRetries + 1) 0 none none 0 0 0 0
  simpa [doRequest] using h

/-- Witness for C2: the always-500 upstream with `MaxRetries = 2`
performs exactly 3 send attempts and returns a "max retries exceeded"
error. -/
theorem do_exhausts_after_max_retries_plus_one_witness :
    (doRequest envAlways500 cfgStatic).sends = cfgStatic.maxRetries + 1 ∧
    ∃ e, (doRequest envAlways500 cfgStatic).error = some e ∧ e.isExhausted = true :=
  do_exhausts_after_max_retries_plus_one envAlways500 cfgStatic
    (by decide) (by decide) (fun _ => rfl)
    (fun k => by simp [envAlways500, retryableOutcome])

/-- Loop invariant for C4, envelope case: when every send attempt
answers 500, the envelope captured on the final iteration is the one the
exhaustion epilogue returns, wrapped in the "max retries exceeded, last
response was" error. -/
lemma doLoop_all_500 (env : Env) (cfg : Configuration) (b : Nat → String)
    (htok : ¬cfg.token = "") (hbuild : env.buildOk = true)
    (hnc : ∀ k, env.cancelDuringSleep k = false)
    (hr : ∀ k, env.send k = .httpResp 500 (b k)) :
    ∀ fuel, 1 ≤ fuel → ∀ i le lr s sl r ec,
      (doLoop env cfg fuel i le lr s sl r ec).envelope
          = some ⟨statusError, none, b (s + fuel - 1), 500⟩ ∧
      (doLoop env cfg fuel i le lr s sl r ec).error
          = some (.maxRetriesLastResp (b (s + fuel - 1))) := by
  intro fuel
  induction fuel with
  | zero => intro h; omega
  | succ fuel ih =>
    intro _ i le lr s sl r ec
    rcases Nat.eq_zero_or_pos fuel with hf | hf
    · subst hf
      simp [doLoop, hnc, hbuild, htok, hr]
    · obtain ⟨h1, h2⟩ := ih hf (i + 1) (some (.serverStatus 500))
        (some ⟨statusError, none, b s, 500⟩) (s + 1)
        (if 0 < i then sl + 1 else sl) r ec
      have harr : s + 1 + fuel - 1 = s + (fuel + 1) - 1 := by omega
      rw [harr] at h1 h2
      exact ⟨by simp [doLoop, hnc, hbuild, htok, hr, h1],
             by simp [doLoop, hnc, hbuild, htok, hr, h2]⟩

/-- Loop invariant for C4, transport case: when every send attempt fails
in transport and no error envelope was ever captured, exhaustion returns
a nil envelope and wraps only the last transport error. -/
lemma doLoop_all_transport (env : Env) (cfg : Configuration) (m : Nat → String)
    (htok : ¬cfg.token = "") (hbuild : env.buildOk = true)
    (hnc : ∀ k, env.cancelDuringSleep k = false)
    (hr : ∀ k, env.send k = .transportErr (m k)) :
    ∀ fuel, 1 ≤ fuel → ∀ i le s sl r ec,
      (doLoop env cfg fuel i le none s sl r ec).envelope = none ∧
      (doLoop env cfg fuel i le none s sl r ec).error
          = some (.maxRetriesLastErr (.transport (m (s + fuel - 1)))) := by
  intro fuel
  induction fuel with
  | zero => intro h; omega
  | succ fuel ih =>
    intro _ i le s sl r ec
    rcases Nat.eq_zero_or_pos fuel with hf | hf
    · subst hf
      simp [doLoop, hnc, hbuild, htok, hr]
    · obtain ⟨h1, h2⟩ := ih hf (i + 1) (some (.transport (m s))) (s + 1)
        (if 0 < i then sl + 1 else sl) r ec
      have harr : s + 1 + fuel - 1 = s + (fuel + 1) - 1 := by omega
      rw [harr] at h2
      exact ⟨by simp [doLoop, hnc, hbuild, htok, hr, h1],
             by simp [doLoop, hnc, hbuild, htok, hr, h2]⟩

/-- C4: when the loop exhausts its `MaxRetries + 1` attempts, the result
surfaces what the last retryable attempt left behind.  If every attempt
answered 500 (an error-status envelope is captured each time) the result
is the envelope of the final attempt together with the
"max retries exceeded, last response was" wrapping; if every attempt
failed in transport (no envelope ever captured) the result is a nil
envelope and only the "max retries exceeded, last error" wrapping around
the final transport error. -/
theorem do_exhaustion_surfaces_last (env : Env) (cfg : Configuration)
    (b m : Nat → String) (htok : ¬cfg.token = "") (hbuild : env.buildOk = true)
    (hnc : ∀ k, env.cancelDuringSleep k = false) :
    ((∀ k, env.send k = .httpResp 500 (b k)) →
      (doRequest env cfg).envelope = some ⟨statusError, none, b cfg.maxRetries, 500⟩ ∧
      (doRequest env cfg).error = some (.maxRetriesLastResp (b cfg.maxRetries))) ∧
    ((∀ k, env.send k = .transportErr (m k)) →
      (doRequest env cfg).envelope = none ∧
      (doRequest env cfg).error
          = some (.maxRetriesLastErr (.transport (m cfg.maxRetries)))) := by
  constructor <;> intro hr
  · have h := doLoop_all_500 env cfg b htok hbuild hnc hr
      (cfg.maxRetries + 1) (by omega) 0 none none 0 0 0 0
    simpa [doRequest] using h
  · have h := doLoop_all_transport env cfg m htok hbuild hnc hr
      (cfg.maxRetries + 1) (by omega) 0 none 0 0 0 0
    simpa [doRequest] using h

/-- Witness for C4: always-500 yields the captured envelope with the
"last response" wrapping; always-transport-error yields a nil envelope
with the "last error" wrapping, both at `MaxRetries = 2`. -/
theorem do_exhaustion_surfaces_last_witness :
    ((doRequest envAlways500 cfgStatic).envelope
        = some ⟨statusError, none, "boom", 500⟩ ∧
     (doRequest envAlways500 cfgStatic).error
        = some (.maxRetriesLastResp "boom")) ∧
    ((doRequest envAlwaysTransportErr cfgStatic).envelope = none ∧
     (doRequest envAlwaysTransportErr cfgStatic).error
        = some (.maxRetriesLastErr (.transport "conn reset"))) :=
  ⟨(do_exhaustion_surfaces_last envAlways500 cfgStatic
      (fun _ => "boom") (fun _ => "x") (by decide) (by decide)
      (fun _ => rfl)).1 (fun _ => rfl),
   (do_exhaustion_surfaces_last envAlwaysTransportErr cfgStatic
      (fun _ => "x") (fun _ => "conn reset") (by decide) (by decide)
      (fun _ => rfl)).2 (fun _ => rfl)⟩

/-- The safety contract holds for the loop from every state: every
branch of the body either returns a record with a non-nil error or a
non-nil envelope (both for the terminal 4xx classifications) or recurses. -/
lemma doLoop_safe (env : Env) :
    ∀ fuel cfg i le lr s sl r ec,
      SafeResult (doLoop env cfg fuel i le lr s sl r ec) := by
  intro fuel
  induction fuel with
  | zero =>
    intro cfg i le lr s sl r ec
    rcases lr with _ | resp
    · rcases le with _ | e
      · refine ⟨Or.inr rfl, ?_⟩
        intro e he ht
        simp [doLoop] at he
        subst he
        simp [GoError.isTerminal4xxClassification] at ht
      · refine ⟨Or.inr rfl, ?_⟩
        intro e' he ht
        simp [doLoop] at he
        subst he
        simp [GoError.isTerminal4xxClassification] at ht
    · exact ⟨Or.inl rfl, fun _ _ _ => rfl⟩
  | succ fuel ih =>
    intro cfg i le lr s sl r ec
    simp only [doLoop]
    repeat' split
    all_goals
      first
        | apply ih
        | exact ⟨Or.inl rfl, fun _ _ _ => rfl⟩
        | (refine ⟨Or.inr rfl, ?_⟩
           intro e he ht
           simp at he
           subst he
           simp [GoError.isTerminal4xxClassification] at ht)

/-- C6: `do` — and hence `Do`, which delegates to it — is a total
function of its oracle inputs (the embedding terminates on every input,
which is the model of "never panics") and always returns a non-nil
envelope or a non-nil error; whenever the returned error carries one of
the terminal 4xx classifications (authentication failed, permission
denied, not found, invalid request) the diagnostic error envelope is
returned alongside it. -/
theorem do_never_nil_nil (env : Env) (cfg : Configuration) :
    ((doRequest env cfg).envelope.isSome = true ∨
     (doRequest env cfg).error.isSome = true) ∧
    ∀ e, (doRequest env cfg).error = some e →
      e.isTerminal4xxClassification = true →
      (doRequest env cfg).envelope.isSome = true :=
  doLoop_safe env (cfg.maxRetries + 1) cfg 0 none none 0 0 0 0

/-- Witness for C6 at a 403 scenario: the error is terminal-4xx
classified and the envelope is present alongside it. -/
theorem do_never_nil_nil_witness :
    ((doRequest env403 cfgStatic).envelope.isSome = true ∨
     (doRequest env403 cfgStatic).error.isSome = true) ∧
    (doRequest env403 cfgStatic).envelope.isSome = true :=
  ⟨(do_never_nil_nil env403 cfgStatic).1,
   (do_never_nil_nil env403 cfgStatic).2 .permissionDenied (by decide) (by decide)⟩

/-- A successful token exchange never returns the empty string:
`exchangeKeycloakToken` rejects a missing or empty `access_token`. -/
lemma exchangeKeycloakToken_ok_ne_empty (env : Env) (cfg : Configuration)
    (j : Nat) (f : GrantForm) (t : String)
    (h : (exchangeKeycloakToken env cfg j f).result = .ok t) : ¬t = "" := by
  intro hempty
  subst hempty
  unfold exchangeKeycloakToken at h
  repeat' split at h
  all_goals simp_all

/-- A successful `refreshToken` installs exactly the returned token into
the configuration, and that token is non-empty. -/
lemma refreshToken_ok_shape (env : Env) (cfg : Configuration) (j : Nat) (t : String)
    (h : (refreshToken env cfg j).result = .ok t) :
    (refreshToken env cfg j).config = { cfg with token := t } ∧ ¬t = "" := by
  by_cases hcc : cfg.hasKeycloakClientCredentials = true
  · rcases hex : (exchangeKeycloakToken env cfg j (clientCredentialsForm cfg)).result
      with e1 | t1
    · by_cases hpw : cfg.hasKeycloakPasswordGrantCredentials = true
      · rcases hex2 : (exchangeKeycloakToken env cfg
            (j + (exchangeKeycloakToken env cfg j (clientCredentialsForm cfg)).endpointCalls)
            (passwordGrantForm cfg)).result with e2 | t2
        · simp [refreshToken, hcc, hex, hpw, hex2] at h
        · have hne := exchangeKeycloakToken_ok_ne_empty env cfg
            (j + (exchangeKeycloakToken env cfg j (clientCredentialsForm cfg)).endpointCalls)
            (passwordGrantForm cfg) t2 hex2
          simp [refreshToken, hcc, hex, hpw, hex2] at h ⊢
          subst h
          simp_all
      · simp [refreshToken, hcc, hex, hpw] at h
    · have hne := exchangeKeycloakToken_ok_ne_empty env cfg j
        (clientCredentialsForm cfg) t1 hex
      simp [refreshToken, hcc, hex] at h ⊢
      subst h
      simp_all
  · by_cases hpw : cfg.hasKeycloakPasswordGrantCredentials = true
    · rcases hex2 : (exchangeKeycloakToken env cfg j (passwordGrantForm cfg)).result
        with e2 | t2
      · simp [refreshToken, hcc, hex2, hpw] at h
      · have hne := exchangeKeycloakToken_ok_ne_empty env cfg j
          (passwordGrantForm cfg) t2 hex2
        simp [refreshToken, hcc, hex2, hpw] at h ⊢
        subst h
        simp_all
    · simp [refreshToken, hcc, hpw] at h

/-- C1 (amended): a 401 with an OIDC scheme configured always triggers
one `refreshToken` call.  On refresh success the loop continues to the
next iteration and retries with the new token — but that retried attempt
is an ordinary loop iteration: since its index is positive, a full
backoff sleep IS inserted before the extra send (the claim's
"without a backoff sleep" does not hold), and the retry consumes one
unit of the `MaxRetries` budget (so it requires `MaxRetries ≥ 1`).  A
single 401 followed by a 200 thus costs exactly one refresh call, one
extra send attempt, and one backoff sleep.  On refresh failure the 401
error envelope is returned immediately with the bare
`ErrAuthenticationFailed` classification: one send, one refresh, no
sleep, no further attempts. -/
theorem do_401_refresh_then_retry (env : Env) (cfg : Configuration) (b401 : String)
    (htok : ¬cfg.token = "") (hbuild : env.buildOk = true)
    (hkc : cfg.isKeycloakAuthMethodConfigured = true)
    (h0 : env.send 0 = .httpResp 401 b401) :
    (∀ b v t, 1 ≤ cfg.maxRetries → env.cancelDuringSleep 0 = false →
      env.send 1 = .httpResp 200 b → env.parse b = some v →
      (refreshToken env cfg 0).result = .ok t →
      (doRequest env cfg).envelope = some ⟨statusOK, some v, "", 200⟩ ∧
      (doRequest env cfg).error = none ∧
      (doRequest env cfg).sends = 2 ∧
      (doRequest env cfg).refreshes = 1 ∧
      (doRequest env cfg).sleeps = 1) ∧
    (∀ e, (refreshToken env cfg 0).result = .error e →
      (doRequest env cfg).envelope = some ⟨statusError, none, b401, 401⟩ ∧
      (doRequest env cfg).error = some .authenticationFailed ∧
      (doRequest env cfg).sends = 1 ∧
      (doRequest env cfg).refreshes = 1 ∧
      (doRequest env cfg).sleeps = 0) := by
  constructor
  · intro b v t hmr hcan h1 hp hr
    obtain ⟨hcfg, hne⟩ := refreshToken_ok_shape env cfg 0 t hr
    obtain ⟨m, hm⟩ : ∃ m, cfg.maxRetries = m + 1 := ⟨cfg.maxRetries - 1, by omega⟩
    refine ⟨?_, ?_, ?_, ?_, ?_⟩ <;>
      simp [doRequest, doLoop, hm, htok, hbuild, hkc, h0, h1, hcan, hr, hp,
        hcfg, hne]
  · intro e hr
    refine ⟨?_, ?_, ?_, ?_, ?_⟩ <;>
      simp [doRequest, doLoop, htok, hbuild, hkc, h0, hr]

/-- Counterexample to C1 as stated: in the claim's own scenario — a
single 401 answered by a successful refresh and then a 200, with
`MaxRetries = 1` and client-credentials OIDC configured — exactly one
refresh and one extra send do occur and the call succeeds, but the
backoff-sleep count is 1, not 0: the `continue` after the refresh
re-enters the loop at index 1, where the `i > 0` guard executes a full
backoff sleep before the retried send.  This refutes "without a backoff
sleep being inserted for that step". -/
theorem do_401_refresh_counterexample :
    (doRequest envRefreshOk cfgOidc).refreshes = 1 ∧
    (doRequest envRefreshOk cfgOidc).sends = 2 ∧
    (doRequest envRefreshOk cfgOidc).error = none ∧
    ¬(doRequest envRefreshOk cfgOidc).sleeps = 0 := by
  refine ⟨?_, ?_, ?_, ?_⟩ <;> decide

/-- Witness for C1 (amended): the refresh-success scenario at
`envRefreshOk` and the refresh-failure scenario at `envRefreshDown`
(token endpoint unreachable, no password-grant fallback configured). -/
theorem do_401_refresh_then_retry_witness :
    ((doRequest envRefreshOk cfgOidc).envelope
        = some ⟨statusOK, some "{}", "", 200⟩ ∧
     (doRequest envRefreshOk cfgOidc).error = none ∧
     (doRequest envRefreshOk cfgOidc).sends = 2 ∧
     (doRequest envRefreshOk cfgOidc).refreshes = 1 ∧
     (doRequest envRefreshOk cfgOidc).sleeps = 1) ∧
    ((doRequest envRefreshDown cfgOidc).envelope
        = some ⟨statusError, none, "unauthorized", 401⟩ ∧
     (doRequest envRefreshDown cfgOidc).error = some .authenticationFailed ∧
     (doRequest envRefreshDown cfgOidc).sends = 1 ∧
     (doRequest envRefreshDown cfgOidc).refreshes = 1 ∧
     (doRequest envRefreshDown cfgOidc).sleeps = 0) :=
  ⟨(do_401_refresh_then_retry envRefreshOk cfgOidc "unauthorized"
      (by decide) (by decide) (by decide) rfl).1
      "{}" "{}" "fresh" (by decide) rfl rfl rfl (by decide),
   (do_401_refresh_then_retry envRefreshDown cfgOidc "unauthorized"
      (by decide) (by decide) (by decide) rfl).2
      .invalidConfiguration (by decide)⟩

/-- Updating the token field does not change which grant credentials are
configured. -/
lemma hasKeycloakClientCredentials_token_update (cfg : Configuration) (t : String) :
    ({ cfg with token := t } : Configuration).hasKeycloakClientCredentials
      = cfg.hasKeycloakClientCredentials := rfl

/-- Updating the token field does not change the client-credentials
form. -/
lemma clientCredentialsForm_token_update (cfg : Configuration) (t : String) :
    clientCredentialsForm { cfg with token := t } = clientCredentialsForm cfg := rfl

/-- C3 (amended): `refreshToken` tries the client-credentials grant
first whenever client id and secret are configured, and falls back to
the password grant when the client-credentials exchange fails and
username and password are configured.  Its failures are classified, but
not always as authentication errors.  When the password grant is not
configured, every failure is the bare `ErrInvalidConfiguration`: both
when no scheme is configured at all and when only client-credentials
are configured and their exchange fails.  An authentication-classified
error arises exactly when the configured password grant — tried last —
fails: every auth-classified result is the password-grant-failed
wrapping (possible only with password credentials configured), and
whenever the password exchange fails — with or without a preceding
failed client-credentials attempt — that wrapping of its error is the
result. -/
theorem refreshToken_priority_and_classification (env : Env) (cfg : Configuration)
    (j : Nat) :
    (cfg.hasKeycloakClientCredentials = true →
      (refreshToken env cfg j).attempts.head? = some (clientCredentialsForm cfg)) ∧
    (cfg.hasKeycloakClientCredentials = true →
      cfg.hasKeycloakPasswordGrantCredentials = true →
      ∀ e, (exchangeKeycloakToken env cfg j (clientCredentialsForm cfg)).result
          = .error e →
        (refreshToken env cfg j).attempts
          = [clientCredentialsForm cfg, passwordGrantForm cfg]) ∧
    (cfg.hasKeycloakClientCredentials = false →
      cfg.hasKeycloakPasswordGrantCredentials = false →
      (refreshToken env cfg j).result = .error .invalidConfiguration) ∧
    (cfg.hasKeycloakClientCredentials = true →
      cfg.hasKeycloakPasswordGrantCredentials = false →
      ∀ e1, (exchangeKeycloakToken env cfg j (clientCredentialsForm cfg)).result
          = .error e1 →
        (refreshToken env cfg j).result = .error .invalidConfiguration) ∧
    (cfg.hasKeycloakPasswordGrantCredentials = false →
      ∀ e, (refreshToken env cfg j).result = .error e →
        e = .invalidConfiguration) ∧
    (∀ e, (refreshToken env cfg j).result = .error e →
      e.isAuthClassified = true →
      cfg.hasKeycloakPasswordGrantCredentials = true ∧
      ∃ e2, e = .authPasswordGrantFailed e2) ∧
    (cfg.hasKeycloakPasswordGrantCredentials = true →
      (cfg.hasKeycloakClientCredentials = false →
        ∀ e2, (exchangeKeycloakToken env cfg j (passwordGrantForm cfg)).result
            = .error e2 →
          (refreshToken env cfg j).result
            = .error (.authPasswordGrantFailed e2)) ∧
      (cfg.hasKeycloakClientCredentials = true →
        ∀ e1 e2,
          (exchangeKeycloakToken env cfg j (clientCredentialsForm cfg)).result
            = .error e1 →
          (exchangeKeycloakToken env cfg
              (j + (exchangeKeycloakToken env cfg j
                (clientCredentialsForm cfg)).endpointCalls)
              (passwordGrantForm cfg)).result = .error e2 →
          (refreshToken env cfg j).result
            = .error (.authPasswordGrantFailed e2))) := by
  refine ⟨?_, ?_, ?_, ?_, ?_, ?_, ?_⟩
  · intro hcc
    simp only [refreshToken, hcc]
    repeat' split
    all_goals first
      | rfl
      | simp_all
  · intro hcc hpw e hex
    simp [refreshToken, hcc, hpw, hex]
    split <;> rfl
  · intro hcc hpw
    simp [refreshToken, hcc, hpw]
  · intro hcc hpw e1 hex
    simp [refreshToken, hcc, hpw, hex]
  · intro hpw e he
    by_cases hcc : cfg.hasKeycloakClientCredentials = true
    · rcases hex : (exchangeKeycloakToken env cfg j (clientCredentialsForm cfg)).result
        with e1 | t1
      · simp [refreshToken, hcc, hpw, hex] at he
        subst he
        rfl
      · simp [refreshToken, hcc, hex] at he
    · simp [refreshToken, hcc, hpw] at he
      subst he
      rfl
  · intro e he ha
    by_cases hcc : cfg.hasKeycloakClientCredentials = true
    · rcases hex : (exchangeKeycloakToken env cfg j (clientCredentialsForm cfg)).result
        with e1 | t1
      · by_cases hpw : cfg.hasKeycloakPasswordGrantCredentials = true
        · rcases hex2 : (exchangeKeycloakToken env cfg
              (j + (exchangeKeycloakToken env cfg j
                (clientCredentialsForm cfg)).endpointCalls)
              (passwordGrantForm cfg)).result with e2 | t2
          · simp [refreshToken, hcc, hpw, hex, hex2] at he
            subst he
            exact ⟨hpw, e2, rfl⟩
          · simp [refreshToken, hcc, hpw, hex, hex2] at he
        · simp [refreshToken, hcc, hpw, hex] at he
          subst he
          simp [GoError.isAuthClassified] at ha
      · simp [refreshToken, hcc, hex] at he
    · by_cases hpw : cfg.hasKeycloakPasswordGrantCredentials = true
      · rcases hex2 : (exchangeKeycloakToken env cfg j (passwordGrantForm cfg)).result
          with e2 | t2
        · simp [refreshToken, hcc, hpw, hex2] at he
          subst he
          exact ⟨hpw, e2, rfl⟩
        · simp [refreshToken, hcc, hpw, hex2] at he
      · simp [refreshToken, hcc, hpw] at he
        subst he
        simp [GoError.isAuthClassified] at ha
  · intro hpw
    constructor
    · intro hcc e2 hex2
      simp [refreshToken, hcc, hpw, hex2]
    · intro hcc e1 e2 hex1 hex2
      simp [refreshToken, hcc, hpw, hex1, hex2]

/-- Counterexample to C3 as stated: with neither OIDC scheme configured,
`refreshToken` performs no exchange and returns the bare
`ErrInvalidConfiguration`, which is NOT the authentication-failed
classification (`errors.Is(err, ErrAuthenticationFailed)` is false), so
"returns a classified authentication error whenever neither scheme is
configured" fails on the code. -/
theorem refreshToken_no_scheme_counterexample :
    refreshToken envNoCall cfgNoScheme 0
      = ⟨.error .invalidConfiguration, cfgNoScheme, [], 0⟩ ∧
    GoError.isAuthClassified .invalidConfiguration = false := by
  constructor <;> decide

/-- Witness for C3 (amended): client-credentials tried first at a
both-grants configuration; the fallback attempt list after a failing
client-credentials exchange; the invalid-configuration result with no
scheme and with only failing client-credentials; the classification of
a no-password-grant failure; the auth-classified error being the
password-grant-failed wrapping when both grants fail at an unreachable
endpoint. -/
theorem refreshToken_priority_witness :
    (refreshToken envCCFailsPWOk cfgBothGrants 0).attempts.head?
        = some (clientCredentialsForm cfgBothGrants) ∧
    (refreshToken envCCFailsPWOk cfgBothGrants 0).attempts
        = [clientCredentialsForm cfgBothGrants, passwordGrantForm cfgBothGrants] ∧
    (refreshToken envNoCall cfgNoScheme 0).result = .error .invalidConfiguration ∧
    (refreshToken envRefreshDown cfgOidc 0).result = .error .invalidConfiguration ∧
    GoError.invalidConfiguration = .invalidConfiguration ∧
    (cfgBothGrants.hasKeycloakPasswordGrantCredentials = true ∧
      ∃ e2, GoError.authPasswordGrantFailed (.authKeycloakUnreachable "down")
          = .authPasswordGrantFailed e2) ∧
    (refreshToken envRefreshDown cfgBothGrants 0).result
        = .error (.authPasswordGrantFailed (.authKeycloakUnreachable "down")) :=
  ⟨(refreshToken_priority_and_classification envCCFailsPWOk cfgBothGrants 0).1
      (by decide),
   (refreshToken_priority_and_classification envCCFailsPWOk cfgBothGrants 0).2.1
      (by decide) (by decide) (.authExchangeFailed 403 "denied") (by decide),
   (refreshToken_priority_and_classification envNoCall cfgNoScheme 0).2.2.1
      (by decide) (by decide),
   (refreshToken_priority_and_classification envRefreshDown cfgOidc 0).2.2.2.1
      (by decide) (by decide) (.authKeycloakUnreachable "down") (by decide),
   (refreshToken_priority_and_classification envNoCall cfgNoScheme 0).2.2.2.2.1
      (by decide) .invalidConfiguration (by decide),
   (refreshToken_priority_and_classification envRefreshDown cfgBothGrants
      0).2.2.2.2.2.1
      (.authPasswordGrantFailed (.authKeycloakUnreachable "down"))
      (by decide) (by decide),
   ((refreshToken_priority_and_classification envRefreshDown cfgBothGrants
      0).2.2.2.2.2.2 (by decide)).2 (by decide)
      (.authKeycloakUnreachable "down") (.authKeycloakUnreachable "down")
      (by decide) (by decide)⟩

/-- Counterexample to C5 as stated: two 401-triggered refreshes on a
shared client — executed one after the other, which is exactly the
serialization `authMutex` enforces, with no interleaving at all — each
perform their own token-endpoint round trip: two round trips, not the
claimed exactly one.  `refreshToken` always exchanges when called (the
source comments "we always refresh when this is called"); it does not
detect that a concurrent caller already refreshed the token. -/
theorem concurrent_refresh_counterexample :
    ((serializedDoubleRefresh envEndpointOk cfgOidc).1.endpointCalls
      + (serializedDoubleRefresh envEndpointOk cfgOidc).2.endpointCalls = 2) ∧
    ¬((serializedDoubleRefresh envEndpointOk cfgOidc).1.endpointCalls
      + (serializedDoubleRefresh envEndpointOk cfgOidc).2.endpointCalls = 1) ∧
    (serializedDoubleRefresh envEndpointOk cfgOidc).1.result = .ok "fresh" ∧
    (serializedDoubleRefresh envEndpointOk cfgOidc).2.result = .ok "fresh" := by
  refine ⟨?_, ?_, ?_, ?_⟩ <;> decide

/-- C5 (amended): `authMutex` covers the whole exchange round trip, so
two concurrent 401-triggered refreshes on a shared client serialize into
two back-to-back `refreshToken` calls; with a healthy token endpoint
each of the two calls performs its own exchange round trip — exactly two
in total — and both succeed, leaving the refreshed token installed in
the shared configuration. -/
theorem concurrent_401_serialized_two_exchanges (env : Env) (cfg : Configuration)
    (B t : String)
    (hcc : cfg.hasKeycloakClientCredentials = true)
    (hbase : ¬cfg.keycloakBaseURL = "") (hrealm : ¬cfg.keycloakRealm = "")
    (hend : ∀ k, env.tokenEndpoint k = .resp 200 B)
    (hjson : env.tokenJson B = some (some t)) (hne : ¬t = "") :
    (serializedDoubleRefresh env cfg).1.result = .ok t ∧
    (serializedDoubleRefresh env cfg).2.result = .ok t ∧
    (serializedDoubleRefresh env cfg).1.endpointCalls
      + (serializedDoubleRefresh env cfg).2.endpointCalls = 2 ∧
    (serializedDoubleRefresh env cfg).2.config.token = t := by
  have h1 : refreshToken env cfg 0
      = ⟨.ok t, { cfg with token := t }, [clientCredentialsForm cfg], 1⟩ := by
    simp [refreshToken, hcc, exchangeKeycloakToken, hbase, hrealm, hend, hjson, hne]
  have hcc2 : ({ cfg with token := t } : Configuration).hasKeycloakClientCredentials
      = true := by
    rw [hasKeycloakClientCredentials_token_update]
    exact hcc
  have h2 : refreshToken env { cfg with token := t } 1
      = ⟨.ok t, { cfg with token := t },
          [clientCredentialsForm { cfg with token := t }], 1⟩ := by
    simp [refreshToken, hcc2, exchangeKeycloakToken, hbase, hrealm, hend, hjson, hne]
  refine ⟨?_, ?_, ?_, ?_⟩ <;> simp [serializedDoubleRefresh, h1, h2]

/-- Witness for C5 (amended) at the concrete healthy-endpoint
environment. -/
theorem concurrent_401_serialized_two_exchanges_witness :
    (serializedDoubleRefresh envEndpointOk cfgOidc).1.result = .ok "fresh" ∧
    (serializedDoubleRefresh envEndpointOk cfgOidc).2.result = .ok "fresh" ∧
    (serializedDoubleRefresh envEndpointOk cfgOidc).1.endpointCalls
      + (serializedDoubleRefresh envEndpointOk cfgOidc).2.endpointCalls = 2 ∧
    (serializedDoubleRefresh envEndpointOk cfgOidc).2.config.token = "fresh" :=
  concurrent_401_serialized_two_exchanges envEndpointOk cfgOidc "tokenbody" "fresh"
    (by decide) (by decide) (by decide) (fun _ => rfl) rfl (by decide)

end HyperfluidSdk
